import Mathlib

/-!
Verification of the educational-notebook repository (PID tuning, spam filtering,
stock prices, house prices, loan default, wearable sensors, iris pruning,
fruit classification, electrical fault detection).

Each notebook is a linear script of library calls.  We embed, per notebook:
  * its sequence of pipeline operations (`Step` trace), read off the cells in order;
  * its import list;
  * its data-generation code as explicit functions of random-draw streams;
and the two helper functions `predict_single_email` / `predict_batch_emails`
defined by the Gaussian-Naive-Bayes spam notebook.

Library metrics (`accuracy_score`, `r2_score`) are not repository code; they are
modelled from their standard definitions, as the spec's glossary describes them.
-/

set_option maxRecDepth 4096

/-- Kind of plot drawn by a plotting cell. -/
inductive PlotKind where
  | predVsTruth      -- scatter/line of predictions against ground truth
  | rawData          -- plot of the generated data itself
  | transformedFeatures
  | decisionBoundary -- scatter of test points coloured by predicted class
  | treeDiagram      -- sklearn.tree.plot_tree rendering
deriving DecidableEq, Repr

/-- Kind of evaluation metric invoked. -/
inductive MetricKind where
  | r2
  | accuracy
  | confusion
  | classReport
  | mse
  | precisionScore
  | recallScore
  | f1
deriving DecidableEq, Repr

/-- One pipeline operation of a notebook, in source order.
`genData sampling ownSeed`: construction of a dataset; `sampling` is true when the
construction draws from a random generator, and `ownSeed` records a seed passed
directly to the generating call (e.g. `make_classification(random_state=42)`). -/
inductive Step where
  | seed (n : Nat)                          -- np.random.seed(n)
  | genData (sampling : Bool) (ownSeed : Option Nat)
  | preprocess                              -- scaling / vectorizing / interpolation / poly features
  | split                                   -- train_test_split
  | fit                                     -- model.fit
  | predict                                 -- model.predict
  | metric (m : MetricKind)                 -- metric call
  | plot (k : PlotKind)                     -- plotting call
deriving DecidableEq, Repr

/-- A notebook of the repository: its name, imported modules, the number of
try/except blocks in its code, and its trace of pipeline operations. -/
structure Notebook where
  name : String
  imports : List String
  tryExceptCount : Nat
  trace : List Step
deriving DecidableEq, Repr

/-- PID Controller Tuning using Boosting Models (AdaBoost, GradientBoosting, XGBoost):
seed, simulate data, StandardScaler, split, 9 fits, 9 predictions, 9 R2 scores,
9 prediction-vs-truth plots. -/
def pidBoosting : Notebook :=
  { name := "pid_boosting"
    imports := ["numpy", "pandas", "sklearn.model_selection", "sklearn.metrics",
                "sklearn.preprocessing", "sklearn.ensemble", "xgboost", "matplotlib.pyplot"]
    tryExceptCount := 0
    trace := [Step.seed 42, Step.genData true none, Step.preprocess, Step.split]
      ++ List.replicate 9 Step.fit
      ++ List.replicate 9 Step.predict
      ++ List.replicate 9 (Step.metric MetricKind.r2)
      ++ List.replicate 9 (Step.plot PlotKind.predVsTruth) }

/-- PID Parameter Prediction using Random Forest (and Decision Tree):
seed, simulate data, StandardScaler, split, 2 fits, 2 predictions, 6 R2 scores,
6 subplot scatter comparisons of true vs predicted values. -/
def pidRandomForest : Notebook :=
  { name := "pid_random_forest"
    imports := ["numpy", "pandas", "sklearn.model_selection", "sklearn.tree",
                "sklearn.ensemble", "sklearn.metrics", "sklearn.preprocessing",
                "matplotlib.pyplot"]
    tryExceptCount := 0
    trace := [Step.seed 42, Step.genData true none, Step.preprocess, Step.split,
              Step.fit, Step.fit, Step.predict, Step.predict]
      ++ List.replicate 6 (Step.metric MetricKind.r2)
      ++ List.replicate 6 (Step.plot PlotKind.predVsTruth) }

/-- Gaussian Naive Bayes spam email filtering: literal 20-row dataset, split, fit,
predict, accuracy, confusion matrix, then two extra prediction calls through
predict_single_email and predict_batch_emails.  No plot. -/
def spamGNB : Notebook :=
  { name := "spam_gnb"
    imports := ["numpy", "pandas", "sklearn.naive_bayes", "sklearn.model_selection",
                "sklearn.metrics"]
    tryExceptCount := 0
    trace := [Step.genData false none, Step.split, Step.fit, Step.predict,
              Step.metric MetricKind.accuracy, Step.metric MetricKind.confusion,
              Step.predict, Step.predict] }

/-- Stock Price Prediction using Polynomial Regression: unseeded random walk, then
interpolate / rolling mean / StandardScaler, raw-data plot, polynomial features
(computed twice), feature plot, split, fit, full-data prediction with fit plot,
train/test predictions, RMSE and R2 on train and test. -/
def stockPrice : Notebook :=
  { name := "stock_price"
    imports := ["pandas", "numpy", "matplotlib.pyplot", "sklearn.preprocessing",
                "sklearn.model_selection", "sklearn.linear_model", "sklearn.metrics",
                "math"]
    tryExceptCount := 0
    trace := [Step.genData true none, Step.preprocess, Step.preprocess, Step.preprocess,
              Step.plot PlotKind.rawData, Step.preprocess, Step.preprocess,
              Step.plot PlotKind.transformedFeatures, Step.split, Step.fit,
              Step.predict, Step.plot PlotKind.predVsTruth, Step.predict, Step.predict,
              Step.metric MetricKind.mse, Step.metric MetricKind.mse,
              Step.metric MetricKind.r2, Step.metric MetricKind.r2] }

/-- Predicting House Prices Using Linear Regression: literal 5-row dataset, then
seeded 1000-sample simulation, split, fit, test prediction, MSE, R2, a single
2200 sqft prediction, and a scatter + regression-line plot (which predicts again). -/
def housePrices : Notebook :=
  { name := "house_prices"
    imports := ["numpy", "matplotlib.pyplot", "sklearn.linear_model",
                "sklearn.model_selection", "sklearn.metrics"]
    tryExceptCount := 0
    trace := [Step.genData false none, Step.seed 42, Step.genData true none, Step.split,
              Step.fit, Step.predict, Step.metric MetricKind.mse,
              Step.metric MetricKind.r2, Step.predict, Step.predict,
              Step.plot PlotKind.predVsTruth] }

/-- Predicting Loan Default using Logistic Regression: seeded simulation, split,
StandardScaler applied AFTER the split (fit_transform on train, transform on test),
fit, predict, accuracy/precision/recall/F1/confusion, decision-boundary scatter. -/
def loanDefault : Notebook :=
  { name := "loan_default"
    imports := ["numpy", "pandas", "sklearn.model_selection", "sklearn.preprocessing",
                "sklearn.linear_model", "sklearn.metrics", "matplotlib.pyplot"]
    tryExceptCount := 0
    trace := [Step.seed 42, Step.genData true none, Step.split, Step.preprocess,
              Step.preprocess, Step.fit, Step.predict,
              Step.metric MetricKind.accuracy, Step.metric MetricKind.precisionScore,
              Step.metric MetricKind.recallScore, Step.metric MetricKind.f1,
              Step.metric MetricKind.confusion, Step.plot PlotKind.decisionBoundary] }

/-- Email Spam Classification using Multinomial Naive Bayes (lec02): literal 4-email
dataset, CountVectorizer, split, fit, then accuracy / confusion matrix /
classification report on a y_pred variable that no cell ever defines (there is no
predict call).  No plot. -/
def spamMNB : Notebook :=
  { name := "spam_mnb"
    imports := ["sklearn.feature_extraction.text", "sklearn.naive_bayes",
                "sklearn.model_selection", "sklearn.metrics"]
    tryExceptCount := 0
    trace := [Step.genData false none, Step.preprocess, Step.split, Step.fit,
              Step.metric MetricKind.accuracy, Step.metric MetricKind.confusion,
              Step.metric MetricKind.classReport] }

/-- Decision Tree Pruning for Iris Dataset (lec02): load_iris, split, pre-pruned fit,
two .score evaluations (predict + accuracy each), post-pruned fit, two more .score
evaluations.  No plot. -/
def irisPruning : Notebook :=
  { name := "iris_pruning"
    imports := ["sklearn.tree", "sklearn.model_selection", "sklearn.datasets"]
    tryExceptCount := 0
    trace := [Step.genData false none, Step.split, Step.fit,
              Step.predict, Step.metric MetricKind.accuracy,
              Step.predict, Step.metric MetricKind.accuracy,
              Step.fit,
              Step.predict, Step.metric MetricKind.accuracy,
              Step.predict, Step.metric MetricKind.accuracy] }

/-- Fruit Classification using Decision Trees (lec02): seeded simulation, split,
entropy and gini fits, two predictions, two accuracies, two plot_tree diagrams. -/
def fruitClassification : Notebook :=
  { name := "fruit_classification"
    imports := ["numpy", "pandas", "sklearn.tree", "sklearn.model_selection",
                "sklearn.metrics", "matplotlib.pyplot", "sklearn"]
    tryExceptCount := 0
    trace := [Step.seed 42, Step.genData true none, Step.split, Step.fit, Step.fit,
              Step.predict, Step.predict,
              Step.metric MetricKind.accuracy, Step.metric MetricKind.accuracy,
              Step.plot PlotKind.treeDiagram, Step.plot PlotKind.treeDiagram] }

/-- Wearable Sensor Data Analysis for Disease Detection (lec05): literal 10-row
dataset, then seeded 1000-sample simulation, StandardScaler, split, fit, predict,
accuracy, classification report, confusion matrix.  No plot. -/
def wearableSensor : Notebook :=
  { name := "wearable_sensor"
    imports := ["pandas", "numpy", "sklearn.preprocessing", "sklearn.model_selection",
                "sklearn.linear_model", "sklearn.metrics"]
    tryExceptCount := 0
    trace := [Step.genData false none, Step.seed 42, Step.genData true none,
              Step.preprocess, Step.split, Step.fit, Step.predict,
              Step.metric MetricKind.accuracy, Step.metric MetricKind.classReport,
              Step.metric MetricKind.confusion] }

/-- Bagging and Boosting for Fault Detection in Electrical Systems (lec07):
make_classification with its own random_state=42 (no np.random.seed call), split,
bagging fit + predict + accuracy, boosting fit + predict + accuracy, then two more
accuracy calls in the comparison cell.  No plot. -/
def faultDetection : Notebook :=
  { name := "fault_detection"
    imports := ["numpy", "pandas", "matplotlib.pyplot", "sklearn.datasets",
                "sklearn.model_selection", "sklearn.tree", "sklearn.linear_model",
                "sklearn.ensemble", "sklearn.metrics"]
    tryExceptCount := 0
    trace := [Step.genData true (some 42), Step.split,
              Step.fit, Step.predict, Step.metric MetricKind.accuracy,
              Step.fit, Step.predict, Step.metric MetricKind.accuracy,
              Step.metric MetricKind.accuracy, Step.metric MetricKind.accuracy] }

/-- All notebooks of the repository. -/
def notebooks : List Notebook :=
  [pidBoosting, pidRandomForest, spamGNB, stockPrice, housePrices, loanDefault,
   spamMNB, irisPruning, fruitClassification, wearableSensor, faultDetection]

/-- Is the step a dataset construction? -/
def isGen : Step → Bool
  | Step.genData _ _ => true
  | _ => false

/-- Is the step a dataset construction that samples from a random generator? -/
def isSamplingGen : Step → Bool
  | Step.genData true _ => true
  | _ => false

def isPreprocess : Step → Bool
  | Step.preprocess => true
  | _ => false

def isSplit : Step → Bool
  | Step.split => true
  | _ => false

def isFit : Step → Bool
  | Step.fit => true
  | _ => false

def isPredict : Step → Bool
  | Step.predict => true
  | _ => false

def isMetric : Step → Bool
  | Step.metric _ => true
  | _ => false

def isPlot : Step → Bool
  | Step.plot _ => true
  | _ => false

def isPredVsTruthPlot : Step → Bool
  | Step.plot PlotKind.predVsTruth => true
  | _ => false

def isSeed42 : Step → Bool
  | Step.seed 42 => true
  | _ => false

/-- Every step satisfying `post` is strictly preceded by some step satisfying `pre`. -/
def precededBy (pre post : Step → Bool) : List Step → Bool
  | [] => true
  | s :: rest =>
    if post s then false
    else if pre s then true
    else precededBy pre post rest

/-- After the first step satisfying `trigger`, no step satisfies `bad`. -/
def noneAfter (trigger bad : Step → Bool) : List Step → Bool
  | [] => true
  | s :: rest =>
    if trigger s then rest.all (fun x => !(bad x))
    else noneAfter trigger bad rest

/-- The trace contains a step satisfying `p`. -/
def hasStep (p : Step → Bool) (l : List Step) : Bool := l.any p

/-- The notebook calls np.random.seed(42) and does so before every sampling
data-generation step (and it has at least one sampling step). -/
def callsSeed42BeforeSampling (l : List Step) : Bool :=
  precededBy isSeed42 isSamplingGen l && hasStep isSamplingGen l

/-- The trace contains a sampling data-generation step that draws from the global
generator (no own random_state) with no np.random.seed call before it. -/
def unseededSampling : List Step → Bool
  | [] => false
  | Step.seed _ :: _ => false
  | Step.genData true none :: _ => true
  | _ :: rest => unseededSampling rest

example : precededBy isSplit isFit pidBoosting.trace = true := by decide
example : noneAfter isSplit isPreprocess loanDefault.trace = false := by decide
example : callsSeed42BeforeSampling faultDetection.trace = false := by decide
example : unseededSampling stockPrice.trace = true := by decide

/-!  Execution semantics.  A notebook runs its statements strictly top to bottom.
`b j` is the outcome of the j-th statement when it calls into a library: `none`
means success, `some e` means the library raises exception `e`.  No notebook
contains a try/except, so execution returns the log of completed statements and,
if a statement raised, that same exception, with nothing executed after it. -/
def runSeq {E : Type} (b : Nat → Option E) : List Step → List Step × Option E
  | [] => ([], none)
  | s :: rest =>
    match b 0 with
    | some e => ([], some e)
    | none =>
      let r := runSeq (fun j => b (j + 1)) rest
      (s :: r.1, r.2)

/-- If the i-th statement raises `e` and all earlier ones succeed, execution stops
there: the log is exactly the first i statements and the exception is `e` itself. -/
theorem runSeq_first_error {E : Type} (e : E) :
    ∀ (i : Nat) (l : List Step) (b : Nat → Option E), i < l.length → b i = some e →
      (∀ j, j < i → b j = none) → runSeq b l = (l.take i, some e) := by
  intro i
  induction i with
  | zero =>
    intro l b hi hb _
    match l with
    | [] => simp at hi
    | s :: rest => simp [runSeq, hb]
  | succ n ih =>
    intro l b hi hb hpre
    match l with
    | [] => simp at hi
    | s :: rest =>
      have h0 : b 0 = none := hpre 0 (Nat.succ_pos n)
      have hr := ih rest (fun j => b (j + 1)) (Nat.lt_of_succ_lt_succ hi) hb
        (fun j hj => hpre (j + 1) (Nat.succ_lt_succ hj))
      simp [runSeq, h0, hr]

/-- The execution log is always an initial segment of the notebook, in order:
statements run top to bottom with no reordering. -/
theorem runSeq_log_take {E : Type} (b : Nat → Option E) :
    ∀ l : List Step, ∃ k, (runSeq b l).1 = l.take k := by
  intro l
  induction l generalizing b with
  | nil => exact ⟨0, rfl⟩
  | cons s rest ih =>
    cases hb : b 0 with
    | some e => exact ⟨0, by simp [runSeq, hb]⟩
    | none =>
      obtain ⟨k, hk⟩ := ih (fun j => b (j + 1))
      exact ⟨k + 1, by simp [runSeq, hb, hk]⟩

/-- Modules that would introduce threads, subprocess pools, or asynchronous
execution; no notebook imports any of them. -/
def concurrencyModules : List String :=
  ["threading", "asyncio", "multiprocessing", "concurrent.futures", "_thread",
   "subprocess"]

/-!  Data generation, embedded from the notebook cells.  Random draws are modelled
as reads from explicit streams `Nat → ℚ`: the i-th value produced by a sampling
call is the i-th element of the stream backing that call. -/

/-- A column of n sampled values. -/
def colOf (f : Nat → ℚ) (n : Nat) : List ℚ := (List.range n).map f

/-- np.cumsum. -/
def cumsum : List ℚ → List ℚ
  | [] => []
  | x :: xs => x :: (cumsum xs).map (fun y => x + y)

/-- StandardScaler (and any other per-column transform) acts elementwise on a
column; the transform itself involves sqrt of the variance, which we keep
abstract as `g` since only the shape of the output matters here. -/
def scaleCol (g : ℚ → ℚ) (l : List ℚ) : List ℚ := l.map g

theorem cumsum_length : ∀ l : List ℚ, (cumsum l).length = l.length := by
  intro l
  induction l with
  | nil => rfl
  | cons x xs ih => simp [cumsum, ih]

/-- cumsum computes running prefix sums: its i-th entry is the sum of the first
i+1 entries of the input. -/
theorem cumsum_getElem? : ∀ (l : List ℚ) (i : Nat), i < l.length →
    (cumsum l)[i]? = some ((l.take (i + 1)).sum) := by
  intro l
  induction l with
  | nil => intro i hi; simp at hi
  | cons x xs ih =>
    intro i hi
    cases i with
    | zero => simp [cumsum]
    | succ n =>
      have hn : n < xs.length := Nat.lt_of_succ_lt_succ hi
      simp [cumsum, List.getElem?_map, ih n hn]

theorem colOf_getElem? (f : Nat → ℚ) (n i : Nat) (h : i < n) :
    (colOf f n)[i]? = some (f i) := by
  simp [colOf, List.getElem?_map, List.getElem?_range, h]

theorem zipWith_map_same {α β γ δ : Type} (f : α → β) (g : α → γ) (h : β → γ → δ) :
    ∀ l : List α, List.zipWith h (l.map f) (l.map g) = l.map (fun x => h (f x) (g x)) := by
  intro l
  induction l with
  | nil => rfl
  | cons x xs ih => simp [ih]

/-!  PID notebooks (identical data simulation in both): n_samples = 1000,
error ~ uniform(-2, 2), derivative ~ uniform(-0.5, 0.5), integral = cumsum(error),
setpoint = 25 + normal(0, 0.5); Kp = 2 + 0.5*error + 0.1*derivative,
Ki = 0.1 + 0.05*integral, Kd = 0.02 + 0.01*derivative. -/

def pid_n_samples : Nat := 1000

def pid_error (e : Nat → ℚ) : List ℚ := colOf e pid_n_samples

def pid_derivative (d : Nat → ℚ) : List ℚ := colOf d pid_n_samples

def pid_integral (e : Nat → ℚ) : List ℚ := cumsum (pid_error e)

def pid_setpoint (s : Nat → ℚ) : List ℚ := (colOf s pid_n_samples).map (fun x => 25 + x)

def pid_Kp (e d : Nat → ℚ) : List ℚ :=
  List.zipWith (fun x y => 2 + 0.5 * x + 0.1 * y) (pid_error e) (pid_derivative d)

def pid_Ki (e : Nat → ℚ) : List ℚ := (pid_integral e).map (fun x => 0.1 + 0.05 * x)

def pid_Kd (d : Nat → ℚ) : List ℚ := (pid_derivative d).map (fun x => 0.02 + 0.01 * x)

/-- Column selection in both PID notebooks: X = data[[Error, Derivative, Integral,
Setpoint]] in the boosting notebook. -/
def pid_boosting_feature_columns : List String := ["Error", "Derivative", "Integral", "Setpoint"]

/-- Targets passed to train_test_split in the boosting notebook: data[[Kp, Ki, Kd]]. -/
def pid_boosting_target_columns : List String := ["Kp", "Ki", "Kd"]

/-- X = data[[Error, Derivative, Integral, Setpoint]] in the random-forest notebook. -/
def pid_rf_feature_columns : List String := ["Error", "Derivative", "Integral", "Setpoint"]

/-- y = data[[Kp, Ki, Kd]] in the random-forest notebook. -/
def pid_rf_target_columns : List String := ["Kp", "Ki", "Kd"]

/-!  Gaussian-Naive-Bayes spam notebook: literal 20-row dataset. -/

/-- np.arange(1, 21). -/
def spam_EmailID : List ℚ := (List.range 20).map (fun i => (i : ℚ) + 1)

def spam_WordCount : List ℚ :=
  [350, 200, 500, 150, 300, 450, 600, 250, 550, 400, 700, 100, 450, 370, 650, 230, 510, 330, 600, 220]

def spam_CapFrequency : List ℚ :=
  [2, 1, 3, 0, 4, 2, 3, 1, 3, 0, 5, 0, 2, 3, 4, 1, 3, 2, 4, 1]

def spam_Spam : List ℚ :=
  [1, 0, 1, 0, 1, 0, 1, 0, 1, 0, 1, 0, 1, 0, 1, 0, 1, 0, 1, 0]

/-!  Stock-price notebook: 500 unseeded normal daily returns, prices are a random
walk from 100; Date becomes days 0..499; a window-5 rolling mean column; Date and
price are scaled; X is the (scaled) date, expanded to degree-3 polynomial rows. -/

def stock_n_days : Nat := 500

def stock_daily_returns (r : Nat → ℚ) : List ℚ := colOf r stock_n_days

def stock_prices (r : Nat → ℚ) : List ℚ :=
  (cumsum (stock_daily_returns r)).map (fun x => 100 + x)

/-- (df.Date - df.Date.min()).dt.days for a daily range of 500 days. -/
def stock_dates : List ℚ := (List.range stock_n_days).map (fun i => (i : ℚ))

/-- pandas rolling(window=5).mean(): defined (some) from the 5th row on, missing
(none) before that; output has one entry per input row. -/
def rollingMean (w : Nat) (l : List ℚ) : List (Option ℚ) :=
  (List.range l.length).map
    (fun i => if w ≤ i + 1 then some (((l.drop (i + 1 - w)).take w).sum / (w : ℚ)) else none)

def stock_moving_average (r : Nat → ℚ) : List (Option ℚ) :=
  rollingMean 5 (stock_prices r)

/-- PolynomialFeatures(degree=3) row for a single feature value. -/
def polyRow (x : ℚ) : List ℚ := [1, x, x ^ 2, x ^ 3]

def stock_X_poly (g : ℚ → ℚ) : List (List ℚ) := (scaleCol g stock_dates).map polyRow

/-!  House-price notebook: a literal 5-row dataset, then a seeded simulation of
1000 square footages with prices 100*x + 50000 + noise. -/

def house_X_small : List ℚ := [1500, 1800, 2400, 3000, 1200]

def house_y_small : List ℚ := [350000, 450000, 500000, 600000, 250000]

def house_n : Nat := 1000

def house_X (u : Nat → ℚ) : List ℚ := colOf u house_n

def house_y (u nz : Nat → ℚ) : List ℚ :=
  List.zipWith (fun x nv => 100 * x + 50000 + nv) (house_X u) (colOf nz house_n)

/-!  Loan-default notebook: 1000 sampled rows of Income, Age, Credit Score and a
binary Loan Default target. -/

def loan_n : Nat := 1000

def loan_income (f : Nat → ℚ) : List ℚ := colOf f loan_n

def loan_age (f : Nat → ℚ) : List ℚ := colOf f loan_n

def loan_credit_score (f : Nat → ℚ) : List ℚ := colOf f loan_n

def loan_default_target (f : Nat → ℚ) : List ℚ := colOf f loan_n

/-!  Wearable-sensor notebook: a literal 10-row dataset, then a seeded simulation
of 1000 rows of heart rate, steps, temperature, activity level, sleep, label. -/

def wearable_heart_rate_small : List ℚ := [72, 80, 78, 65, 85, 92, 68, 76, 77, 79]

def wearable_steps_small : List ℚ := [1000, 1500, 1200, 800, 1800, 2000, 900, 1000, 1100, 1300]

def wearable_temperature_small : List ℚ :=
  [36.5, 37.0, 36.8, 36.4, 37.1, 37.5, 36.6, 36.7, 36.9, 37.2]

def wearable_activity_small : List ℚ := [1, 3, 2, 1, 4, 5, 1, 2, 3, 4]

def wearable_sleep_small : List ℚ := [7, 6, 7, 8, 5, 4, 8, 7, 6, 5]

def wearable_label_small : List ℚ := [0, 1, 0, 0, 1, 1, 0, 0, 1, 0]

def wearable_n : Nat := 1000

def wearable_col (f : Nat → ℚ) : List ℚ := colOf f wearable_n

/-!  Lec02 spam notebook: four literal emails and labels. -/

def lec02_emails : List String :=
  ["Congratulations, you won a prize! Claim your free gift now",
   "Your invoice for the purchase is attached",
   "Get rich quick with this limited offer",
   "Important update regarding your account"]

def lec02_labels : List ℚ := [1, 0, 1, 0]

/-!  Iris notebook.  Modelled from the spec: load_iris is an sklearn call, not
repository code; it yields 150 samples with four features and 150 targets. -/

def iris_n_samples : Nat := 150

def iris_X (row : Nat → List ℚ) : List (List ℚ) := (List.range iris_n_samples).map row

def iris_y (t : Nat → ℚ) : List ℚ := colOf t iris_n_samples

/-!  Fruit-classification notebook: 100 sampled weights and sweetness levels, with
labels np.where((feature1 > 200) & (feature2 > 5), Apple, Orange). -/

def fruit_n : Nat := 100

def fruit_feature1 (f : Nat → ℚ) : List ℚ := colOf f fruit_n

def fruit_feature2 (g : Nat → ℚ) : List ℚ := colOf g fruit_n

def fruit_labels (f g : Nat → ℚ) : List String :=
  List.zipWith (fun a b => if 200 < a ∧ 5 < b then "Apple" else "Orange")
    (fruit_feature1 f) (fruit_feature2 g)

/-!  Fault-detection notebook.  Modelled from the spec: make_classification is an
sklearn call, not repository code; with n_samples=1000 and n_features=20 and its
own random_state=42 it yields 1000 feature rows and 1000 targets. -/

def fault_n_samples : Nat := 1000

def fault_X (row : Nat → List ℚ) : List (List ℚ) := (List.range fault_n_samples).map row

def fault_y (t : Nat → ℚ) : List ℚ := colOf t fault_n_samples

/-!  Seeded data generation as functions of the pseudo-random generator.
`prng seed` is the stream of draws the generator produces after being seeded with
`seed`; `ambient` is the stream it would produce from ambient entropy when never
seeded.  A notebook that calls np.random.seed(42) reads only `prng 42`, so its
generated data cannot depend on `ambient`; the stock notebook never seeds and
reads `ambient` directly.  Successive sampling calls read successive blocks. -/

def pid_dataset (prng : Nat → Nat → ℚ) (_ambient : Nat → ℚ) :
    List ℚ × List ℚ × List ℚ × List ℚ × List ℚ × List ℚ × List ℚ :=
  let rng := prng 42
  let e := fun i => rng i
  let d := fun i => rng (pid_n_samples + i)
  let s := fun i => rng (2 * pid_n_samples + i)
  (pid_error e, pid_derivative d, pid_integral e, pid_setpoint s,
   pid_Kp e d, pid_Ki e, pid_Kd d)

def loan_dataset (prng : Nat → Nat → ℚ) (_ambient : Nat → ℚ) :
    List ℚ × List ℚ × List ℚ × List ℚ :=
  let rng := prng 42
  (loan_income (fun i => rng i),
   loan_age (fun i => rng (loan_n + i)),
   loan_credit_score (fun i => rng (2 * loan_n + i)),
   loan_default_target (fun i => rng (3 * loan_n + i)))

def wearable_dataset (prng : Nat → Nat → ℚ) (_ambient : Nat → ℚ) :
    List ℚ × List ℚ × List ℚ × List ℚ × List ℚ × List ℚ :=
  let rng := prng 42
  (wearable_col (fun i => rng i),
   wearable_col (fun i => rng (wearable_n + i)),
   wearable_col (fun i => rng (2 * wearable_n + i)),
   wearable_col (fun i => rng (3 * wearable_n + i)),
   wearable_col (fun i => rng (4 * wearable_n + i)),
   wearable_col (fun i => rng (5 * wearable_n + i)))

def house_dataset (prng : Nat → Nat → ℚ) (_ambient : Nat → ℚ) : List ℚ × List ℚ :=
  let rng := prng 42
  (house_X (fun i => rng i), house_y (fun i => rng i) (fun i => rng (house_n + i)))

def fruit_dataset (prng : Nat → Nat → ℚ) (_ambient : Nat → ℚ) :
    List ℚ × List ℚ × List String :=
  let rng := prng 42
  (fruit_feature1 (fun i => rng i),
   fruit_feature2 (fun i => rng (fruit_n + i)),
   fruit_labels (fun i => rng i) (fun i => rng (fruit_n + i)))

/-- The stock notebook NEVER seeds: its daily returns come straight from ambient
entropy, so two executions need not agree. -/
def stock_dataset (ambient : Nat → ℚ) : List ℚ × List ℚ :=
  (stock_daily_returns ambient, stock_prices ambient)

/-!  Evaluation metrics.  Modelled from the spec: accuracy_score and r2_score are
sklearn library functions, not repository code; the spec glossary describes them
as the standard statistical metrics, embedded here by their textbook formulas. -/

/-- Modelled from the spec: sklearn.metrics.accuracy_score — the fraction of
positions where prediction and truth agree. -/
def accuracy_score (y_true y_pred : List ℚ) : ℚ :=
  (List.zipWith (fun a b => if a = b then (1 : ℚ) else 0) y_true y_pred).sum
    / (y_true.length : ℚ)

def listMean (l : List ℚ) : ℚ := l.sum / (l.length : ℚ)

/-- Residual sum of squares. -/
def ssRes (y_true y_pred : List ℚ) : ℚ :=
  (List.zipWith (fun a b => (a - b) ^ 2) y_true y_pred).sum

/-- Total sum of squares about the mean of y_true. -/
def ssTot (y_true : List ℚ) : ℚ :=
  (y_true.map (fun y => (y - listMean y_true) ^ 2)).sum

/-- Modelled from the spec: sklearn.metrics.r2_score = 1 - SS_res / SS_tot. -/
def r2_score (y_true y_pred : List ℚ) : ℚ :=
  1 - ssRes y_true y_pred / ssTot y_true

theorem indicator_sum_nonneg (y_true y_pred : List ℚ) :
    0 ≤ (List.zipWith (fun a b => if a = b then (1 : ℚ) else 0) y_true y_pred).sum := by
  apply List.sum_nonneg
  intro x hx
  induction y_true generalizing y_pred with
  | nil => simp at hx
  | cons a as ih =>
    cases y_pred with
    | nil => simp at hx
    | cons b bs =>
      simp only [List.zipWith, List.mem_cons] at hx
      rcases hx with h | h
      · subst h; split <;> norm_num
      · exact ih bs h

theorem indicator_sum_le_length : ∀ (y_true y_pred : List ℚ),
    (List.zipWith (fun a b => if a = b then (1 : ℚ) else 0) y_true y_pred).sum
      ≤ (y_true.length : ℚ) := by
  intro y_true
  induction y_true with
  | nil => intro y_pred; simp
  | cons a as ih =>
    intro y_pred
    cases y_pred with
    | nil => simp; positivity
    | cons b bs =>
      simp only [List.zipWith, List.sum_cons, List.length_cons]
      have h1 : (if a = b then (1 : ℚ) else 0) ≤ 1 := by split <;> norm_num
      have h2 := ih bs
      push_cast
      linarith

theorem ssRes_nonneg : ∀ (y_true y_pred : List ℚ), 0 ≤ ssRes y_true y_pred := by
  intro y_true
  induction y_true with
  | nil => intro y_pred; simp [ssRes]
  | cons a as ih =>
    intro y_pred
    cases y_pred with
    | nil => simp [ssRes]
    | cons b bs =>
      have h := ih bs
      simp only [ssRes, List.zipWith, List.sum_cons] at h ⊢
      have : 0 ≤ (a - b) ^ 2 := sq_nonneg _
      linarith

theorem ssTot_pos_of_nonconstant (y_true : List ℚ)
    (h : ∃ a ∈ y_true, ∃ b ∈ y_true, a ≠ b) : 0 < ssTot y_true := by
  obtain ⟨a, ha, b, hb, hab⟩ := h
  have hy : ∃ y ∈ y_true, y ≠ listMean y_true := by
    by_cases hA : a = listMean y_true
    · exact ⟨b, hb, fun hB => hab (hA.trans hB.symm)⟩
    · exact ⟨a, ha, hA⟩
  obtain ⟨y, hy_mem, hy_ne⟩ := hy
  have hmem : (y - listMean y_true) ^ 2 ∈
      y_true.map (fun z => (z - listMean y_true) ^ 2) :=
    List.mem_map_of_mem _ hy_mem
  have hnn : ∀ x ∈ y_true.map (fun z => (z - listMean y_true) ^ 2), (0 : ℚ) ≤ x := by
    intro x hx
    obtain ⟨z, _, rfl⟩ := List.mem_map.mp hx
    exact sq_nonneg _
  have hpos : 0 < (y - listMean y_true) ^ 2 := by
    have hne : y - listMean y_true ≠ 0 := sub_ne_zero_of_ne hy_ne
    exact lt_of_le_of_ne (sq_nonneg _) (Ne.symm (pow_ne_zero 2 hne))
  calc (0 : ℚ) < (y - listMean y_true) ^ 2 := hpos
    _ ≤ (y_true.map (fun z => (z - listMean y_true) ^ 2)).sum :=
        List.single_le_sum hnn _ hmem

/-!  Prediction helper functions defined by the Gaussian-Naive-Bayes spam
notebook.  The trained classifier is abstracted as a function from a
(word_count, cap_frequency) pair to the predicted class label. -/

/-- predict_single_email: wraps the model prediction for one email and renders it
as the string Spam (prediction 1) or Not Spam (anything else). -/
def predict_single_email (model : ℤ × ℤ → ℤ) (word_count cap_frequency : ℤ) : String :=
  if model (word_count, cap_frequency) = 1 then "Spam" else "Not Spam"

/-- predict_batch_emails: predicts each email of the batch and renders each
prediction as Spam or Not Spam, preserving order. -/
def predict_batch_emails (model : ℤ × ℤ → ℤ) (email_list : List (ℤ × ℤ)) : List String :=
  (email_list.map model).map (fun pred => if pred = 1 then "Spam" else "Not Spam")

/-!  Claims. -/

/-- C1 counterexample: the claimed pipeline order fails as stated.  The
loan-default notebook runs its StandardScaler preprocessing AFTER the train/test
split (indeed no preprocessing precedes its split at all); the stock-price
notebook plots before any model is fitted (so plotting is not last); and the
MultinomialNB spam notebook evaluates metrics without any prediction step. -/
theorem C1_pipeline_order_counterexample :
    loanDefault ∈ notebooks ∧
    noneAfter isSplit isPreprocess loanDefault.trace = false ∧
    precededBy isPreprocess isSplit loanDefault.trace = false ∧
    stockPrice ∈ notebooks ∧
    precededBy isFit isPlot stockPrice.trace = false ∧
    spamMNB ∈ notebooks ∧
    precededBy isPredict isMetric spamMNB.trace = false := by decide

/-- C1 (amended): every notebook generates data before the train/test split,
splits before any model fitting, and fits before any prediction and before any
metric evaluation; every notebook except the loan-default notebook performs
preprocessing only before the split (loan-default standardizes after it), and
plotting/evaluation are not always in the stated final positions. -/
theorem C1_pipeline_order_amended : ∀ nb ∈ notebooks,
    precededBy isGen isSplit nb.trace = true ∧
    precededBy isSplit isFit nb.trace = true ∧
    precededBy isFit isPredict nb.trace = true ∧
    precededBy isFit isMetric nb.trace = true ∧
    (nb.name ≠ "loan_default" → noneAfter isSplit isPreprocess nb.trace = true) := by
  decide

/-- Witness for C1 (amended) at the PID boosting notebook. -/
theorem C1_pipeline_order_witness :
    pidBoosting ∈ notebooks ∧
    (precededBy isGen isSplit pidBoosting.trace = true ∧
     precededBy isSplit isFit pidBoosting.trace = true ∧
     precededBy isFit isPredict pidBoosting.trace = true ∧
     precededBy isFit isMetric pidBoosting.trace = true ∧
     (pidBoosting.name ≠ "loan_default" →
        noneAfter isSplit isPreprocess pidBoosting.trace = true)) :=
  ⟨by decide, C1_pipeline_order_amended pidBoosting (by decide)⟩

/-- C2 counterexample: the claim fails as stated.  The iris pruning notebook
draws no plot at all (in particular no prediction-vs-truth scatter/line plot),
and the MultinomialNB spam notebook never calls predict, so its metrics are not
computed on the model's predictions. -/
theorem C2_notebook_contents_counterexample :
    irisPruning ∈ notebooks ∧
    irisPruning.trace.all (fun s => !(isPlot s)) = true ∧
    spamMNB ∈ notebooks ∧
    spamMNB.trace.all (fun s => !(isPredict s)) = true := by decide

/-- C2 (amended): every notebook constructs a dataset, fits a library model and
invokes at least one standard metric; every notebook except the MultinomialNB
spam notebook computes predictions; but only the two PID notebooks, the
stock-price notebook and the house-prices notebook draw a scatter/line plot
comparing predictions to ground truth. -/
theorem C2_notebook_contents_amended : ∀ nb ∈ notebooks,
    hasStep isGen nb.trace = true ∧
    hasStep isFit nb.trace = true ∧
    hasStep isMetric nb.trace = true ∧
    hasStep isPredVsTruthPlot nb.trace =
      (["pid_boosting", "pid_random_forest", "stock_price", "house_prices"].contains nb.name) ∧
    (nb.name ≠ "spam_mnb" → hasStep isPredict nb.trace = true) := by
  decide

/-- Witness for C2 (amended) at the PID random-forest notebook. -/
theorem C2_notebook_contents_witness :
    pidRandomForest ∈ notebooks ∧
    (hasStep isGen pidRandomForest.trace = true ∧
     hasStep isFit pidRandomForest.trace = true ∧
     hasStep isMetric pidRandomForest.trace = true ∧
     hasStep isPredVsTruthPlot pidRandomForest.trace =
       (["pid_boosting", "pid_random_forest", "stock_price", "house_prices"].contains
         pidRandomForest.name) ∧
     (pidRandomForest.name ≠ "spam_mnb" → hasStep isPredict pidRandomForest.trace = true)) :=
  ⟨by decide, C2_notebook_contents_amended pidRandomForest (by decide)⟩

/-- C6: in both PID notebooks the feature matrix consists exactly of the columns
Error, Derivative, Integral and Setpoint, and none of the target columns Kp, Ki,
Kd appears among the features. -/
theorem C6_pid_feature_target_separation :
    pid_boosting_feature_columns = ["Error", "Derivative", "Integral", "Setpoint"] ∧
    pid_rf_feature_columns = ["Error", "Derivative", "Integral", "Setpoint"] ∧
    pid_boosting_target_columns = ["Kp", "Ki", "Kd"] ∧
    pid_rf_target_columns = ["Kp", "Ki", "Kd"] ∧
    pid_boosting_target_columns.all
      (fun t => !(pid_boosting_feature_columns.contains t)) = true ∧
    pid_rf_target_columns.all
      (fun t => !(pid_rf_feature_columns.contains t)) = true := by decide

/-- C10 counterexample: the claim misidentifies the seeded notebooks.  The
fault-detection notebook never calls np.random.seed(42) even though it samples
(it passes random_state=42 to make_classification instead), while the
fruit-classification notebook does call np.random.seed(42) before sampling but
is absent from the claim's list. -/
theorem C10_seeding_counterexample :
    faultDetection ∈ notebooks ∧
    callsSeed42BeforeSampling faultDetection.trace = false ∧
    hasStep isSamplingGen faultDetection.trace = true ∧
    fruitClassification ∈ notebooks ∧
    callsSeed42BeforeSampling fruitClassification.trace = true := by decide

/-- C10 (amended): the notebooks that call np.random.seed(42) before sampling are
the two PID notebooks, house prices, loan default, fruit classification and the
wearable-sensor notebook; each of their data generations is a function of the
seeded stream alone, so two executions with different ambient entropy produce
identical arrays.  The stock-price notebook is the only one that samples from
the global generator without any seeding, and its generation can differ between
two executions.  (Fault detection seeds via random_state=42 instead.) -/
theorem C10_seeding_determinism_amended (prng : Nat → Nat → ℚ) (a1 a2 : Nat → ℚ) :
    ((notebooks.filter (fun nb => callsSeed42BeforeSampling nb.trace)).map Notebook.name
      = ["pid_boosting", "pid_random_forest", "house_prices", "loan_default",
         "fruit_classification", "wearable_sensor"]) ∧
    ((notebooks.filter (fun nb => unseededSampling nb.trace)).map Notebook.name
      = ["stock_price"]) ∧
    pid_dataset prng a1 = pid_dataset prng a2 ∧
    loan_dataset prng a1 = loan_dataset prng a2 ∧
    wearable_dataset prng a1 = wearable_dataset prng a2 ∧
    house_dataset prng a1 = house_dataset prng a2 ∧
    fruit_dataset prng a1 = fruit_dataset prng a2 ∧
    stock_dataset (fun _ => 0) ≠ stock_dataset (fun _ => 1) := by
  refine ⟨by decide, by decide, rfl, rfl, rfl, rfl, rfl, ?_⟩
  intro h
  have h1 : stock_daily_returns (fun _ => (0 : ℚ)) = stock_daily_returns (fun _ => (1 : ℚ)) :=
    congrArg Prod.fst h
  have e0 : (stock_daily_returns (fun _ => (0 : ℚ)))[0]? = some 0 :=
    colOf_getElem? _ stock_n_days 0 (by norm_num [stock_n_days])
  have e1 : (stock_daily_returns (fun _ => (1 : ℚ)))[0]? = some 1 :=
    colOf_getElem? _ stock_n_days 0 (by norm_num [stock_n_days])
  rw [h1, e1] at e0
  exact absurd e0 (by norm_num)

/-- C3: in every notebook, every target column has exactly as many rows as every
feature column, at each stage from construction of the table to the train/test
split (including derived columns such as the cumulative integral, the rolling
mean, scaled columns and polynomial feature rows). -/
theorem C3_row_count_consistency
    (e d s : Nat → ℚ) (g : ℚ → ℚ) (r : Nat → ℚ) (gs : ℚ → ℚ)
    (u nz : Nat → ℚ) (lf : Nat → ℚ) (wf : Nat → ℚ)
    (irow : Nat → List ℚ) (it : Nat → ℚ)
    (f1 f2 : Nat → ℚ) (frow : Nat → List ℚ) (ft : Nat → ℚ) :
    ((pid_error e).length = pid_n_samples ∧ (pid_derivative d).length = pid_n_samples ∧
     (pid_integral e).length = pid_n_samples ∧ (pid_setpoint s).length = pid_n_samples ∧
     (pid_Kp e d).length = pid_n_samples ∧ (pid_Ki e).length = pid_n_samples ∧
     (pid_Kd d).length = pid_n_samples ∧
     (scaleCol g (pid_error e)).length = pid_n_samples) ∧
    (spam_EmailID.length = 20 ∧ spam_WordCount.length = 20 ∧
     spam_CapFrequency.length = 20 ∧ spam_Spam.length = 20) ∧
    ((stock_daily_returns r).length = stock_n_days ∧
     (stock_prices r).length = stock_n_days ∧
     stock_dates.length = stock_n_days ∧
     (stock_moving_average r).length = stock_n_days ∧
     (scaleCol gs (stock_prices r)).length = stock_n_days ∧
     (stock_X_poly gs).length = stock_n_days) ∧
    (house_X_small.length = house_y_small.length ∧
     (house_X u).length = house_n ∧ (house_y u nz).length = house_n) ∧
    ((loan_income lf).length = loan_n ∧ (loan_age lf).length = loan_n ∧
     (loan_credit_score lf).length = loan_n ∧ (loan_default_target lf).length = loan_n) ∧
    (lec02_emails.length = lec02_labels.length) ∧
    ((iris_X irow).length = iris_n_samples ∧ (iris_y it).length = iris_n_samples) ∧
    ((fruit_feature1 f1).length = fruit_n ∧ (fruit_feature2 f2).length = fruit_n ∧
     (fruit_labels f1 f2).length = fruit_n) ∧
    (wearable_heart_rate_small.length = 10 ∧ wearable_steps_small.length = 10 ∧
     wearable_temperature_small.length = 10 ∧ wearable_activity_small.length = 10 ∧
     wearable_sleep_small.length = 10 ∧ wearable_label_small.length = 10 ∧
     (wearable_col wf).length = wearable_n) ∧
    ((fault_X frow).length = fault_n_samples ∧ (fault_y ft).length = fault_n_samples) := by
  simp [pid_error, pid_derivative, pid_integral, pid_setpoint, pid_Kp, pid_Ki, pid_Kd,
        spam_EmailID, spam_WordCount, spam_CapFrequency, spam_Spam,
        stock_daily_returns, stock_prices, stock_dates, stock_moving_average,
        stock_X_poly, rollingMean,
        house_X_small, house_y_small, house_X, house_y,
        loan_income, loan_age, loan_credit_score, loan_default_target,
        lec02_emails, lec02_labels, iris_X, iris_y,
        fruit_feature1, fruit_feature2, fruit_labels,
        wearable_heart_rate_small, wearable_steps_small, wearable_temperature_small,
        wearable_activity_small, wearable_sleep_small, wearable_label_small,
        wearable_col, fault_X, fault_y,
        colOf, scaleCol, cumsum_length, List.length_zipWith]
  exact ⟨by decide, by decide⟩

/-- C4: for every pair of equal-length non-empty label vectors the accuracy metric
lies in [0, 1]; and for every pair of equal-length vectors whose truth vector is
not constant, the R-squared metric is at most 1. -/
theorem C4_metric_bounds (y_true y_pred yt2 yp2 : List ℚ)
    (h1 : y_true ≠ []) (h2 : y_true.length = y_pred.length)
    (h3 : yt2.length = yp2.length) (h4 : ∃ a ∈ yt2, ∃ b ∈ yt2, a ≠ b) :
    (0 ≤ accuracy_score y_true y_pred ∧ accuracy_score y_true y_pred ≤ 1) ∧
    r2_score yt2 yp2 ≤ 1 := by
  have hlen : (0 : ℚ) < (y_true.length : ℚ) := by
    have hp : 0 < y_true.length := List.length_pos.mpr h1
    exact_mod_cast hp
  refine ⟨⟨?_, ?_⟩, ?_⟩
  · exact div_nonneg (indicator_sum_nonneg _ _) (le_of_lt hlen)
  · rw [accuracy_score, div_le_one hlen]
    exact indicator_sum_le_length _ _
  · have htot := ssTot_pos_of_nonconstant yt2 h4
    have hres := ssRes_nonneg yt2 yp2
    have hdiv : 0 ≤ ssRes yt2 yp2 / ssTot yt2 := div_nonneg hres (le_of_lt htot)
    rw [r2_score]
    linarith

/-- Witness for C4 at accuracy([1],[1]) and r2([0,1],[0,0]). -/
theorem C4_metric_bounds_witness :
    (([(1 : ℚ)] ≠ []) ∧ [(1 : ℚ)].length = [(1 : ℚ)].length ∧
     [(0 : ℚ), 1].length = [(0 : ℚ), 0].length ∧
     (∃ a ∈ [(0 : ℚ), 1], ∃ b ∈ [(0 : ℚ), 1], a ≠ b)) ∧
    ((0 ≤ accuracy_score [1] [1] ∧ accuracy_score [1] [1] ≤ 1) ∧
     r2_score [0, 1] [0, 0] ≤ 1) :=
  ⟨⟨by decide, rfl, rfl, by decide⟩,
   C4_metric_bounds [1] [1] [0, 1] [0, 0] (by decide) rfl rfl (by decide)⟩

/-- C5: no notebook contains a try/except, and when the i-th library call of a
notebook raises exception e (all earlier calls succeeding), the notebook's run
stops right there, having executed exactly the statements before the failing
call, and surfaces that very exception. -/
theorem C5_error_propagation (E : Type) (nb : Notebook) (hnb : nb ∈ notebooks)
    (b : Nat → Option E) (i : Nat) (e : E) (hi : i < nb.trace.length)
    (hfail : b i = some e) (hpre : ∀ j, j < i → b j = none) :
    nb.tryExceptCount = 0 ∧ runSeq b nb.trace = (nb.trace.take i, some e) := by
  refine ⟨?_, runSeq_first_error e i nb.trace b hi hfail hpre⟩
  have h : ∀ nb ∈ notebooks, nb.tryExceptCount = 0 := by decide
  exact h nb hnb

/-- Witness for C5: the GNB spam notebook with its 4th statement (the predict
call) raising error code 7. -/
theorem C5_error_propagation_witness :
    spamGNB ∈ notebooks ∧ 3 < spamGNB.trace.length ∧
    ((fun j => if j = 3 then some 7 else none) 3 = some (7 : Nat)) ∧
    (∀ j, j < 3 → (fun j => if j = 3 then some (7 : Nat) else none) j = none) ∧
    (spamGNB.tryExceptCount = 0 ∧
     runSeq (fun j => if j = 3 then some (7 : Nat) else none) spamGNB.trace
       = (spamGNB.trace.take 3, some 7)) :=
  ⟨by decide, by decide, by norm_num, by decide,
   C5_error_propagation Nat spamGNB (by decide) _ 3 7 (by decide) (by norm_num)
     (by decide)⟩

/-- C7: no notebook imports a threading, multiprocessing or async module, and
execution is strictly sequential: whatever the outcomes of its library calls,
the executed statements form an initial segment of the notebook, in order. -/
theorem C7_sequential_execution (nb : Notebook) (hnb : nb ∈ notebooks)
    (E : Type) (b : Nat → Option E) :
    nb.imports.all (fun m => !(concurrencyModules.contains m)) = true ∧
    ∃ k, (runSeq b nb.trace).1 = nb.trace.take k := by
  refine ⟨?_, runSeq_log_take b nb.trace⟩
  have h : ∀ nb ∈ notebooks,
      nb.imports.all (fun m => !(concurrencyModules.contains m)) = true := by decide
  exact h nb hnb

/-- Witness for C7 at the stock-price notebook with all library calls succeeding. -/
theorem C7_sequential_execution_witness :
    stockPrice ∈ notebooks ∧
    (stockPrice.imports.all (fun m => !(concurrencyModules.contains m)) = true ∧
     ∃ k, (runSeq (fun _ => (none : Option Nat)) stockPrice.trace).1
       = stockPrice.trace.take k) :=
  ⟨by decide, C7_sequential_execution stockPrice (by decide) Nat (fun _ => none)⟩

/-- C8: in the PID notebooks every generated row satisfies the exact equations
Kp = 2 + 0.5*Error + 0.1*Derivative and Kd = 0.02 + 0.01*Derivative, Integral is
the running prefix sum of Error, and with Error drawn from [-2, 2] and Derivative
from [-0.5, 0.5] every Kp lies in [0.95, 3.05] and every Kd in [0.015, 0.025]. -/
theorem C8_pid_generation (e d : Nat → ℚ)
    (he : ∀ i, -2 ≤ e i ∧ e i ≤ 2) (hd : ∀ i, -0.5 ≤ d i ∧ d i ≤ 0.5) :
    (∀ i, i < pid_n_samples →
      (pid_Kp e d)[i]? = some (2 + 0.5 * e i + 0.1 * d i)) ∧
    (∀ i, i < pid_n_samples →
      (pid_Kd d)[i]? = some (0.02 + 0.01 * d i)) ∧
    (∀ i, i < pid_n_samples →
      (pid_integral e)[i]? = some (((pid_error e).take (i + 1)).sum)) ∧
    (∀ x ∈ pid_Kp e d, 0.95 ≤ x ∧ x ≤ 3.05) ∧
    (∀ x ∈ pid_Kd d, 0.015 ≤ x ∧ x ≤ 0.025) := by
  have hKp : pid_Kp e d = colOf (fun i => 2 + 0.5 * e i + 0.1 * d i) pid_n_samples := by
    rw [pid_Kp, pid_error, pid_derivative, colOf, colOf, zipWith_map_same]
    rfl
  have hKd : pid_Kd d = colOf (fun i => 0.02 + 0.01 * d i) pid_n_samples := by
    rw [pid_Kd, pid_derivative, colOf, colOf, List.map_map]
    rfl
  refine ⟨?_, ?_, ?_, ?_, ?_⟩
  · intro i hi
    rw [hKp]
    exact colOf_getElem? _ _ i hi
  · intro i hi
    rw [hKd]
    exact colOf_getElem? _ _ i hi
  · intro i hi
    have hlen : i < (pid_error e).length := by
      simpa [pid_error, colOf] using hi
    simpa [pid_integral] using cumsum_getElem? (pid_error e) i hlen
  · intro x hx
    rw [hKp] at hx
    simp only [colOf, List.mem_map] at hx
    obtain ⟨i, -, rfl⟩ := hx
    obtain ⟨he1, he2⟩ := he i
    obtain ⟨hd1, hd2⟩ := hd i
    constructor <;> linarith
  · intro x hx
    rw [hKd] at hx
    simp only [colOf, List.mem_map] at hx
    obtain ⟨i, -, rfl⟩ := hx
    obtain ⟨hd1, hd2⟩ := hd i
    constructor <;> linarith

/-- Witness for C8 with the constant streams Error = 1 and Derivative = 0. -/
theorem C8_pid_generation_witness :
    ((∀ i : Nat, -2 ≤ ((fun _ => (1 : ℚ)) i) ∧ ((fun _ => (1 : ℚ)) i) ≤ 2) ∧
     (∀ i : Nat, -0.5 ≤ ((fun _ => (0 : ℚ)) i) ∧ ((fun _ => (0 : ℚ)) i) ≤ 0.5)) ∧
    ((∀ i, i < pid_n_samples →
       (pid_Kp (fun _ => 1) (fun _ => 0))[i]? = some (2 + 0.5 * 1 + 0.1 * 0)) ∧
     (∀ i, i < pid_n_samples →
       (pid_Kd (fun _ => 0))[i]? = some (0.02 + 0.01 * 0)) ∧
     (∀ i, i < pid_n_samples →
       (pid_integral (fun _ => 1))[i]?
         = some (((pid_error (fun _ => 1)).take (i + 1)).sum)) ∧
     (∀ x ∈ pid_Kp (fun _ => 1) (fun _ => 0), 0.95 ≤ x ∧ x ≤ 3.05) ∧
     (∀ x ∈ pid_Kd (fun _ => 0), 0.015 ≤ x ∧ x ≤ 0.025)) :=
  ⟨⟨fun _ => ⟨by norm_num, by norm_num⟩, fun _ => ⟨by norm_num, by norm_num⟩⟩,
   C8_pid_generation (fun _ => 1) (fun _ => 0)
     (fun _ => ⟨by norm_num, by norm_num⟩) (fun _ => ⟨by norm_num, by norm_num⟩)⟩

/-- C9: predict_single_email returns Spam exactly when the model predicts 1 and
Not Spam otherwise; predict_batch_emails preserves the batch length, returns only
the strings Spam and Not Spam, and its i-th entry is determined by the model's
prediction on the i-th input. -/
theorem C9_spam_prediction_functions (model : ℤ × ℤ → ℤ) (wc cf : ℤ)
    (email_list : List (ℤ × ℤ)) :
    (predict_single_email model wc cf = "Spam" ↔ model (wc, cf) = 1) ∧
    (predict_single_email model wc cf = "Not Spam" ↔ ¬ model (wc, cf) = 1) ∧
    (predict_batch_emails model email_list).length = email_list.length ∧
    (predict_batch_emails model email_list).all
      (fun s => s == "Spam" || s == "Not Spam") = true ∧
    (∀ i : Nat, (predict_batch_emails model email_list)[i]? =
      (email_list[i]?).map (fun em => if model em = 1 then "Spam" else "Not Spam")) := by
  refine ⟨?_, ?_, ?_, ?_, ?_⟩
  · constructor
    · intro h
      by_contra hm
      rw [predict_single_email, if_neg hm] at h
      exact absurd h (by decide)
    · intro h
      rw [predict_single_email, if_pos h]
  · constructor
    · intro h hm
      rw [predict_single_email, if_pos hm] at h
      exact absurd h (by decide)
    · intro hm
      rw [predict_single_email, if_neg hm]
  · simp [predict_batch_emails]
  · rw [List.all_eq_true]
    intro s hs
    obtain ⟨pred, -, rfl⟩ := List.mem_map.mp hs
    by_cases hp : pred = 1 <;> simp [hp]
  · intro i
    simp only [predict_batch_emails, List.getElem?_map, Option.map_map]
    rfl
